import Mathlib

/-!
Shallow embedding of the data-access layer of the webapp-server repository.

The repository contains two revisions of the same thin CRUD wrapper over a
MongoDB client:
  * `src/db.py`        — function-based (embedded here in namespace `db`)
  * `src/server/db.py` — class `DB`    (embedded here in namespace `DB`)

Modelling choices:
  * A BSON ObjectId is determined by its 24-character hexadecimal string
    form; we model it as a list of 24 hex digits (`Fin 16`).  `oidToStr`
    is `str(oid)` (lowercase hex) and `parseOId` is the validating
    `ObjectId(string)` constructor, which accepts hex digits of either case.
  * A BSON value is modelled by the inductive `Value`; `Value.vOidDict s`
    is the JSON form `{"$oid": s}` produced by `bson.json_util`.
  * A stored document is a pair of its `_id` value and its remaining
    fields; a collection is a list of such pairs in insertion order; the
    database is an association list from collection names to collections
    together with the state of the fresh-ObjectId generator.
  * Driver calls (`find`, `find_one`, `insert_one`, `replace_one`,
    `delete_one`) are modelled as pure functions on this state.
    `insert_one` fails with `DBErr.duplicateKey` on a duplicate `_id`;
    a Python `NameError` (reading a never-bound local) is `DBErr.nameError`.
  * Flask responses are modelled as a status code plus a structured body
    that keeps every piece of information the real body interpolates,
    without string formatting.
-/

/-- An ObjectId, determined by its 24 hexadecimal digits. -/
abbrev OId := {l : List (Fin 16) // l.length = 24}

/-- Lowercase hexadecimal character of a digit (as produced by `str(oid)`). -/
def hexChar (d : Fin 16) : Char :=
  if d.val < 10 then Char.ofNat (48 + d.val) else Char.ofNat (87 + d.val)

/-- Value of a hexadecimal character, accepting both cases
(as accepted by the `ObjectId` constructor). -/
def hexVal (c : Char) : Option (Fin 16) :=
  if h : 48 ≤ c.toNat ∧ c.toNat ≤ 57 then some ⟨c.toNat - 48, by omega⟩
  else if h : 97 ≤ c.toNat ∧ c.toNat ≤ 102 then some ⟨c.toNat - 87, by omega⟩
  else if h : 65 ≤ c.toNat ∧ c.toNat ≤ 70 then some ⟨c.toNat - 55, by omega⟩
  else none

/-- Model of `str(oid)`: the 24-character lowercase hex representation. -/
def oidToStr (o : OId) : String := ⟨o.val.map hexChar⟩

/-- Parse a list of characters as hex digits, failing on any non-hex one. -/
def parseHex : List Char → Option (List (Fin 16))
  | [] => some []
  | c :: cs =>
    match hexVal c, parseHex cs with
    | some d, some ds => some (d :: ds)
    | _, _ => none

/-- Model of `ObjectId(s)` for a string `s`: valid iff `s` is 24 hex characters. -/
def parseOId (s : String) : Option OId :=
  match parseHex s.data with
  | some l => if hl : l.length = 24 then some ⟨l, hl⟩ else none
  | none => none

/-- The ObjectId assigned by the driver for the `n`-th fresh id. -/
def genOId (n : Nat) : OId :=
  ⟨(List.range 24).map (fun i => ⟨n / 16 ^ i % 16, Nat.mod_lt _ (by norm_num)⟩),
   by simp⟩

/-- A BSON/JSON value, as far as this program distinguishes them. -/
inductive Value where
  | vStr : String → Value
  | vInt : Int → Value
  | vBool : Bool → Value
  | vOid : OId → Value
  /-- the `bson.json_util` JSON form of an ObjectId: a dict with key `$oid` -/
  | vOidDict : String → Value
deriving DecidableEq

/-- A document's fields (a JSON object), in insertion order. -/
abbrev Doc := List (String × Value)

/-- A collection: stored documents as (`_id` value, remaining fields). -/
abbrev Coll := List (Value × Doc)

/-- Errors that propagate as uncaught Python exceptions. -/
inductive DBErr where
  | duplicateKey
  | nameError
deriving DecidableEq

/-- The database-client state: the collections plus the fresh-id counter. -/
structure DBState where
  colls : List (String × Coll)
  nextId : Nat
deriving DecidableEq

/-- Field access `d[k]` / `k in d` on a document. -/
def getField (k : String) : Doc → Option Value
  | [] => none
  | kv :: rest => if kv.1 = k then some kv.2 else getField k rest

/-- Removal (`data.pop("_id")`-style) of a key from a document. -/
def dropField (k : String) (d : Doc) : Doc :=
  d.filter (fun kv => decide (kv.1 ≠ k))

/-- Collection access: an absent collection behaves as empty. -/
def getCollList (name : String) : List (String × Coll) → Coll
  | [] => []
  | kc :: rest => if kc.1 = name then kc.2 else getCollList name rest

def getColl (s : DBState) (name : String) : Coll := getCollList name s.colls

/-- Write a collection back (creating it if absent, as Mongo does). -/
def setCollList (name : String) (c : Coll) : List (String × Coll) → List (String × Coll)
  | [] => [(name, c)]
  | kc :: rest => if kc.1 = name then (name, c) :: rest else kc :: setCollList name c rest

def setColl (s : DBState) (name : String) (c : Coll) : DBState :=
  ⟨setCollList name c s.colls, s.nextId⟩

/-- Model of `find_one({"_id": idv})`: first stored document whose id equals `idv`. -/
def find_one (c : Coll) (idv : Value) : Option Doc :=
  match c with
  | [] => none
  | e :: rest => if e.1 = idv then some e.2 else find_one rest idv

/-- Result counts reported by `replace_one`. -/
structure ReplaceResult where
  matched_count : Nat
  modified_count : Nat
deriving DecidableEq

/-- Model of `replace_one({"_id": idv}, d)`: replace the fields of the (at most one)
document whose id is `idv`; `modified_count` is 0 when the replacement
equals the stored fields. -/
def replaceInColl (c : Coll) (idv : Value) (d : Doc) : ReplaceResult × Coll :=
  match c with
  | [] => (⟨0, 0⟩, [])
  | e :: rest =>
    if e.1 = idv then (⟨1, if e.2 = d then 0 else 1⟩, (e.1, d) :: rest)
    else
      let r := replaceInColl rest idv d
      (r.1, e :: r.2)

/-- Model of `delete_one({"_id": idv})`: remove the first document with id `idv`,
returning `deleted_count`. -/
def deleteFromColl (c : Coll) (idv : Value) : Nat × Coll :=
  match c with
  | [] => (0, [])
  | e :: rest =>
    if e.1 = idv then (1, rest)
    else
      let r := deleteFromColl rest idv
      (r.1, e :: r.2)

/-- Model of `insert_one(data)`: the stored id is the supplied `_id` if present,
otherwise a fresh ObjectId; a duplicate id raises `DuplicateKeyError`. -/
def insert_one (s : DBState) (collection : String) (data : Doc) :
    Except DBErr (Value × DBState) :=
  let p : Value × DBState :=
    match getField "_id" data with
    | some v => (v, s)
    | none => (Value.vOid (genOId s.nextId), ⟨s.colls, s.nextId + 1⟩)
  let content := dropField "_id" data
  let c := getColl p.2 collection
  if (find_one c p.1).isSome then .error .duplicateKey
  else .ok (p.1, setColl p.2 collection (c ++ [(p.1, content)]))

/-- Rendering by `json_util` of a value in a response body: an ObjectId becomes
its `\x7b"$oid": hex\x7d` JSON form. -/
def renderValue : Value → Value
  | .vOid o => .vOidDict (oidToStr o)
  | v => v

/-- Result of `json.loads(json_util.dumps(doc))` on a stored document: the `_id` field
first, then the remaining fields, ObjectIds rendered. -/
def renderDoc (idv : Value) (content : Doc) : Doc :=
  ("_id", renderValue idv) :: content.map (fun kv => (kv.1, renderValue kv.2))

namespace db

/-- From `src/db.py`: `ITEMS_PER_PAGE`. -/
def ITEMS_PER_PAGE : Nat := 10

/-- Response bodies of `src/db.py` (plain strings / JSON dumps), kept as
structured data: each constructor records which message was produced and
everything the real string interpolates. -/
inductive Body where
  /-- array body of `query_collection` -/
  | docs : List Doc → Body
  /-- JSON document body of a successful `query_document_by_id` -/
  | doc : Doc → Body
  /-- "Could not convert \x7bid\x7d to ObjectId" -/
  | couldNotConvert : Value → Body
  /-- "id \x7bid\x7d not found in \x7bcollection\x7d" -/
  | notFound : Value → String → Body
  /-- the `str(id)` success body of `update_document` / `insert_document` -/
  | idOf : Value → Body
  /-- "data had _id but wasn't found in database" -/
  | hadIdNotFound : Body
  /-- "too many documents matched id \x7bid\x7d" -/
  | tooMany : Value → Body
  /-- "document with id \x7bid\x7d not updated" -/
  | notUpdated : Value → Body
  /-- "deleted document with id \x7bid\x7d" -/
  | deleted : Value → Body
  /-- "db reset - test resource id = \x7bresult.inserted_id\x7d" -/
  | resetMsg : Value → Body
deriving DecidableEq

/-- A Flask response of `src/db.py`: status code and body. -/
structure Resp where
  status : Nat
  body : Body
deriving DecidableEq

/-- From `src/db.py`: `query_collection`: skip `page_number * ITEMS_PER_PAGE`
documents, return at most `ITEMS_PER_PAGE`, status 200. -/
def query_collection (s : DBState) (collection : String) (page_number : Nat) : Resp :=
  let offset := page_number * ITEMS_PER_PAGE
  let results := ((getColl s collection).drop offset).take ITEMS_PER_PAGE
  ⟨200, .docs (results.map (fun e => renderDoc e.1 e.2))⟩

/-- From `src/db.py`: `convert_to_oid`: a dict takes its `$oid` entry through the
`ObjectId` constructor; an `ObjectId` passes through; a string is parsed;
anything else raises (`none`). -/
def convert_to_oid : Value → Option OId
  | .vOidDict s => parseOId s
  | .vOid o => some o
  | .vStr s => parseOId s
  | _ => none

/-- From `src/db.py`: `query_document_by_id`. -/
def query_document_by_id (s : DBState) (collection : String) (id : Value) : Resp :=
  match convert_to_oid id with
  | none => ⟨422, .couldNotConvert id⟩
  | some object_id =>
    match find_one (getColl s collection) (.vOid object_id) with
    | some data => ⟨200, .doc (renderDoc (.vOid object_id) data)⟩
    | none => ⟨404, .notFound id collection⟩

/-- From `src/db.py`: the body of `update_document` after `_id` has been popped
(value `idv`) and successfully converted to `object_id`. -/
def update_go (s : DBState) (collection : String) (data : Doc)
    (idv : Value) (object_id : OId) : DBState × Except DBErr Resp :=
  let rc := replaceInColl (getColl s collection) (.vOid object_id) data
  let s' := setColl s collection rc.2
  if rc.1.matched_count = 1 then (s', .ok ⟨200, .idOf idv⟩)
  else if rc.1.matched_count = 0 then (s', .ok ⟨404, .notFound idv collection⟩)
  else if rc.1.matched_count > 1 then (s', .ok ⟨400, .tooMany idv⟩)
  else if rc.1.modified_count = 0 then (s', .ok ⟨400, .notUpdated idv⟩)
  else (s', .error .nameError)

/-- From `src/db.py`: `update_document`: pops `_id` from the data, converts it
(`ObjectId(None)` generates a fresh id), replaces by id. -/
def update_document (s : DBState) (collection : String) (data : Doc) :
    DBState × Except DBErr Resp :=
  let data' := dropField "_id" data
  match getField "_id" data with
  | none =>
    let object_id := genOId s.nextId
    update_go ⟨s.colls, s.nextId + 1⟩ collection data' (.vOid object_id) object_id
  | some idv =>
    match convert_to_oid idv with
    | none => (s, .ok ⟨422, .couldNotConvert idv⟩)
    | some object_id => update_go s collection data' idv object_id

/-- From `src/db.py`: `insert_document`. -/
def insert_document (s : DBState) (collection : String) (data : Doc) :
    DBState × Except DBErr Resp :=
  match insert_one s collection data with
  | .error e => (s, .error e)
  | .ok (idv, s') => (s', .ok ⟨200, .idOf idv⟩)

/-- From `src/db.py`: `upsert_document`: with `_id`, update if the id queries
with status 200, else 400; without `_id`, insert. -/
def upsert_document (s : DBState) (collection : String) (data : Doc) :
    DBState × Except DBErr Resp :=
  match getField "_id" data with
  | some idv =>
    if (query_document_by_id s collection idv).status = 200 then
      update_document s collection data
    else (s, .ok ⟨400, .hadIdNotFound⟩)
  | none => insert_document s collection data

/-- From `src/db.py`: `delete_document_by_id`. -/
def delete_document_by_id (s : DBState) (collection : String) (id : Value) :
    Resp × DBState :=
  match convert_to_oid id with
  | none => (⟨422, .couldNotConvert id⟩, s)
  | some object_id =>
    let dc := deleteFromColl (getColl s collection) (.vOid object_id)
    let s' := setColl s collection dc.2
    if dc.1 > 0 then (⟨200, .deleted id⟩, s')
    else (⟨404, .notFound id collection⟩, s')

end db

/-- Insert each document of `docs` into collection `res` in order, tracking
the last `insert_one` result (Python's loop variable `result`). -/
def insertAll (s : DBState) (res : String) (docs : List Doc) (last : Option Value) :
    DBState × Except DBErr (Option Value) :=
  match docs with
  | [] => (s, .ok last)
  | d :: rest =>
    match insert_one s res d with
    | .error e => (s, .error e)
    | .ok (idv, s') => insertAll s' res rest (some idv)

/-- The nested fixture-loading loops of `reset`, over the configuration's
resource → fixture-documents map. -/
def resetLoop (s : DBState) (cfg : List (String × List Doc)) (last : Option Value) :
    DBState × Except DBErr (Option Value) :=
  match cfg with
  | [] => (s, .ok last)
  | rd :: rest =>
    match insertAll s rd.1 rd.2 last with
    | (s', .ok last') => resetLoop s' rest last'
    | (s', .error e) => (s', .error e)

namespace db

/-- From `src/db.py`: `reset`: drop the database, insert every fixture document
of every resource of the configuration file, then report the last insert's
id — a `NameError` if no insert ever ran. -/
def reset (s : DBState) (cfg : List (String × List Doc)) :
    DBState × Except DBErr Resp :=
  match resetLoop ⟨[], s.nextId⟩ cfg none with
  | (s', .ok (some idv)) => (s', .ok ⟨200, .resetMsg idv⟩)
  | (s', .ok none) => (s', .error .nameError)
  | (s', .error e) => (s', .error e)

end db

/-- Whether a stored document satisfies a Mongo equality filter: every
filter entry must equal the corresponding field (`_id` being the id). -/
def matchesFilter (e : Value × Doc) (q : Doc) : Bool :=
  q.all (fun kv =>
    if kv.1 = "_id" then decide (e.1 = kv.2)
    else decide (getField kv.1 e.2 = some kv.2))

namespace DB

/-- From `src/server/db.py`: `DB.ITEMS_PER_PAGE`. -/
def ITEMS_PER_PAGE : Nat := 10

/-- Response bodies of `src/server/db.py` (JSON envelopes with `success`,
`message`, and sometimes `id` / `updatedExisting`), kept as structured
data: each constructor records which envelope was produced and everything
the real body interpolates. -/
inductive Body where
  /-- array body of `query_collection` -/
  | docs : List Doc → Body
  /-- JSON document body of a successful `query_document_by_id` -/
  | doc : Doc → Body
  /-- success False, "Could not convert \x7bid\x7d to ObjectId" -/
  | errConvert : Value → Body
  /-- 404 string body of `query_document_by_id` -/
  | notFound : Value → String → Body
  /-- "data had _id but wasn't found in database" -/
  | hadIdNotFound : Body
  /-- success True, "updated document with id ...", id, updatedExisting True -/
  | okUpdated : Value → Body
  /-- success False, "document with id \x7bid\x7d not found" -/
  | errNotFound : Value → Body
  /-- success False, "too many documents matched id \x7bid\x7d" -/
  | errTooMany : Value → Body
  /-- success False, "document with id \x7bid\x7d not updated" -/
  | errNotUpdated : Value → Body
  /-- success True, "inserted document", id, updatedExisting False -/
  | okInserted : Value → Body
  /-- success True, "deleted document with id ...", id -/
  | okDeleted : Value → Body
  /-- success True, message `str(result.inserted_id)` -/
  | okReset : Value → Body
deriving DecidableEq

/-- A Flask response of `src/server/db.py`: status code and body. -/
structure Resp where
  status : Nat
  body : Body
deriving DecidableEq

/-- From `src/server/db.py`: `DB.query_collection`: filter, skip
`page_number * ITEMS_PER_PAGE`, return at most `ITEMS_PER_PAGE`, status 200. -/
def query_collection (s : DBState) (collection : String) (page_number : Nat)
    (query : Doc := []) : Resp :=
  let offset := page_number * ITEMS_PER_PAGE
  let results :=
    (((getColl s collection).filter (fun e => matchesFilter e query)).drop
      offset).take ITEMS_PER_PAGE
  ⟨200, .docs (results.map (fun e => renderDoc e.1 e.2))⟩

/-- From `src/server/db.py`: `DB.__convert_to_oid` (same logic as the old
revision's `convert_to_oid`). -/
def convert_to_oid : Value → Option OId
  | .vOidDict s => parseOId s
  | .vOid o => some o
  | .vStr s => parseOId s
  | _ => none

/-- From `src/server/db.py`: `DB.query_document_by_id`. -/
def query_document_by_id (s : DBState) (collection : String) (id : Value) : Resp :=
  match convert_to_oid id with
  | none => ⟨422, .errConvert id⟩
  | some object_id =>
    match find_one (getColl s collection) (.vOid object_id) with
    | some data => ⟨200, .doc (renderDoc (.vOid object_id) data)⟩
    | none => ⟨404, .notFound id collection⟩

/-- From `src/server/db.py`: the body of `DB.__update_document` after `_id` has
been popped (value `idv`) and successfully converted to `object_id`. -/
def update_go (s : DBState) (collection : String) (data : Doc)
    (idv : Value) (object_id : OId) : DBState × Except DBErr Resp :=
  let rc := replaceInColl (getColl s collection) (.vOid object_id) data
  let s' := setColl s collection rc.2
  if rc.1.matched_count = 1 then (s', .ok ⟨200, .okUpdated idv⟩)
  else if rc.1.matched_count = 0 then (s', .ok ⟨404, .errNotFound idv⟩)
  else if rc.1.matched_count > 1 then (s', .ok ⟨400, .errTooMany idv⟩)
  else if rc.1.modified_count = 0 then (s', .ok ⟨400, .errNotUpdated idv⟩)
  else (s', .error .nameError)

/-- From `src/server/db.py`: `DB.__update_document`: pops `_id` from the data,
converts it (`ObjectId(None)` generates a fresh id), replaces by id. -/
def update_document (s : DBState) (collection : String) (data : Doc) :
    DBState × Except DBErr Resp :=
  let data' := dropField "_id" data
  match getField "_id" data with
  | none =>
    let object_id := genOId s.nextId
    update_go ⟨s.colls, s.nextId + 1⟩ collection data' (.vOid object_id) object_id
  | some idv =>
    match convert_to_oid idv with
    | none => (s, .ok ⟨422, .errConvert idv⟩)
    | some object_id => update_go s collection data' idv object_id

/-- From `src/server/db.py`: `DB.__insert_document`. -/
def insert_document (s : DBState) (collection : String) (data : Doc) :
    DBState × Except DBErr Resp :=
  match insert_one s collection data with
  | .error e => (s, .error e)
  | .ok (idv, s') => (s', .ok ⟨200, .okInserted idv⟩)

/-- From `src/server/db.py`: `DB.upsert_document`: with `_id`, update if the id
queries with status 200, else 400; without `_id`, insert. -/
def upsert_document (s : DBState) (collection : String) (data : Doc) :
    DBState × Except DBErr Resp :=
  match getField "_id" data with
  | some idv =>
    if (query_document_by_id s collection idv).status = 200 then
      update_document s collection data
    else (s, .ok ⟨400, .hadIdNotFound⟩)
  | none => insert_document s collection data

/-- From `src/server/db.py`: `DB.delete_document_by_id`. -/
def delete_document_by_id (s : DBState) (collection : String) (id : Value) :
    Resp × DBState :=
  match convert_to_oid id with
  | none => (⟨422, .errConvert id⟩, s)
  | some object_id =>
    let dc := deleteFromColl (getColl s collection) (.vOid object_id)
    let s' := setColl s collection dc.2
    if dc.1 > 0 then (⟨200, .okDeleted id⟩, s')
    else (⟨404, .errNotFound id⟩, s')

/-- From `src/server/db.py`: `DB.reset`: drop the database, insert every fixture
document of every resource of the configuration file, then report the last
insert's id — a `NameError` if no insert ever ran. -/
def reset (s : DBState) (cfg : List (String × List Doc)) :
    DBState × Except DBErr Resp :=
  match resetLoop ⟨[], s.nextId⟩ cfg none with
  | (s', .ok (some idv)) => (s', .ok ⟨200, .okReset idv⟩)
  | (s', .ok none) => (s', .error .nameError)
  | (s', .error e) => (s', .error e)

end DB

/-- Documents carried by an array response body of `src/db.py` (empty for
any other body). -/
def db.resultDocs (r : db.Resp) : List Doc :=
  match r.body with
  | .docs l => l
  | _ => []

/-- Documents carried by an array response body of `src/server/db.py`
(empty for any other body). -/
def DB.resultDocs (r : DB.Resp) : List Doc :=
  match r.body with
  | .docs l => l
  | _ => []

/-- Status code of an old-revision operation outcome, errors preserved. -/
def db.respStatus : Except DBErr db.Resp → Except DBErr Nat
  | .ok r => .ok r.status
  | .error e => .error e

/-- Status code of a new-revision operation outcome, errors preserved. -/
def DB.respStatus : Except DBErr DB.Resp → Except DBErr Nat
  | .ok r => .ok r.status
  | .error e => .error e

/-! ### Generic lemmas about the modelled driver operations -/

theorem hexVal_hexChar : ∀ d : Fin 16, hexVal (hexChar d) = some d := by decide

theorem parseHex_map_hexChar (l : List (Fin 16)) :
    parseHex (l.map hexChar) = some l := by
  induction l with
  | nil => rfl
  | cons d ds ih => simp [parseHex, hexVal_hexChar, ih]

theorem parseOId_oidToStr (o : OId) : parseOId (oidToStr o) = some o := by
  have hd : (oidToStr o).data = o.val.map hexChar := rfl
  rw [parseOId, hd, parseHex_map_hexChar]
  simp [o.property]

theorem getColl_mk (cl : List (String × Coll)) (n : Nat) (name : String) :
    getColl ⟨cl, n⟩ name = getCollList name cl := rfl

theorem getColl_setColl_self (s : DBState) (name : String) (c : Coll) :
    getColl (setColl s name c) name = c := by
  show getCollList name (setCollList name c s.colls) = c
  induction s.colls with
  | nil => simp [setCollList, getCollList]
  | cons kc rest ih =>
    rw [setCollList]
    split
    · simp [getCollList]
    · next h => rw [getCollList, if_neg h, ih]

theorem getColl_setColl_ne (s : DBState) (name : String) (c : Coll)
    (name' : String) (h : name' ≠ name) :
    getColl (setColl s name c) name' = getColl s name' := by
  have hne : ¬name = name' := fun he => h he.symm
  show getCollList name' (setCollList name c s.colls) = getCollList name' s.colls
  induction s.colls with
  | nil => simp [setCollList, getCollList, hne]
  | cons kc rest ih =>
    rw [setCollList]
    split
    · next hk =>
      have h2 : ¬kc.1 = name' := by rw [hk]; exact hne
      simp [getCollList, hne, h2]
    · by_cases hb : kc.1 = name' <;> simp [getCollList, hb, ih]

theorem find_one_eq_none_of_not_mem (c : Coll) (idv : Value)
    (h : idv ∉ c.map Prod.fst) : find_one c idv = none := by
  induction c with
  | nil => rfl
  | cons e rest ih =>
    simp only [List.map_cons, List.mem_cons, not_or] at h
    rw [find_one, if_neg (fun he => h.1 he.symm)]
    exact ih h.2

theorem replaceInColl_keys (c : Coll) (idv : Value) (d : Doc) :
    (replaceInColl c idv d).2.map Prod.fst = c.map Prod.fst := by
  induction c with
  | nil => rfl
  | cons e rest ih =>
    by_cases he : e.1 = idv <;> simp [replaceInColl, he, ih]

theorem replaceInColl_matched (c : Coll) (idv : Value) (d : Doc) :
    (replaceInColl c idv d).1.matched_count =
      if (find_one c idv).isSome then 1 else 0 := by
  induction c with
  | nil => simp [replaceInColl, find_one]
  | cons e rest ih =>
    by_cases he : e.1 = idv <;> simp [replaceInColl, find_one, he, ih]

theorem replaceInColl_not_found (c : Coll) (idv : Value) (d : Doc)
    (h : find_one c idv = none) : replaceInColl c idv d = (⟨0, 0⟩, c) := by
  induction c with
  | nil => rfl
  | cons e rest ih =>
    by_cases he : e.1 = idv
    · simp [find_one, he] at h
    · rw [find_one, if_neg he] at h
      simp [replaceInColl, he, ih h]

theorem find_one_replaceInColl_self (c : Coll) (idv : Value) (d : Doc)
    (h : (find_one c idv).isSome) :
    find_one (replaceInColl c idv d).2 idv = some d := by
  induction c with
  | nil => simp [find_one] at h
  | cons e rest ih =>
    by_cases he : e.1 = idv
    · simp [replaceInColl, he, find_one]
    · rw [find_one, if_neg he] at h
      simp [replaceInColl, he, find_one, ih h]

theorem find_one_replaceInColl_other (c : Coll) (idv : Value) (d : Doc)
    (k : Value) (hk : k ≠ idv) :
    find_one (replaceInColl c idv d).2 k = find_one c k := by
  induction c with
  | nil => rfl
  | cons e rest ih =>
    by_cases he : e.1 = idv
    · have hik : ¬idv = k := fun hc => hk hc.symm
      simp [replaceInColl, find_one, he, hik, ih]
    · by_cases hks : e.1 = k
      · have hki : ¬k = idv := fun hc => he (hks.trans hc)
        simp [replaceInColl, find_one, he, hks, hki]
      · simp [replaceInColl, find_one, he, hks, ih]

theorem deleteFromColl_count (c : Coll) (idv : Value) :
    (deleteFromColl c idv).1 = if (find_one c idv).isSome then 1 else 0 := by
  induction c with
  | nil => simp [deleteFromColl, find_one]
  | cons e rest ih =>
    by_cases he : e.1 = idv <;> simp [deleteFromColl, find_one, he, ih]

theorem deleteFromColl_not_found (c : Coll) (idv : Value)
    (h : find_one c idv = none) : deleteFromColl c idv = (0, c) := by
  induction c with
  | nil => rfl
  | cons e rest ih =>
    by_cases he : e.1 = idv
    · simp [find_one, he] at h
    · rw [find_one, if_neg he] at h
      simp [deleteFromColl, he, ih h]

theorem deleteFromColl_length (c : Coll) (idv : Value)
    (h : (find_one c idv).isSome) :
    (deleteFromColl c idv).2.length + 1 = c.length := by
  induction c with
  | nil => simp [find_one] at h
  | cons e rest ih =>
    by_cases he : e.1 = idv
    · simp [deleteFromColl, he]
    · rw [find_one, if_neg he] at h
      have hr := ih h
      simp [deleteFromColl, he]
      omega

theorem deleteFromColl_mem (c : Coll) (idv : Value) (e : Value × Doc)
    (he : e ∈ c) (hne : e.1 ≠ idv) : e ∈ (deleteFromColl c idv).2 := by
  induction c with
  | nil => cases he
  | cons a rest ih =>
    by_cases ha : a.1 = idv
    · rcases List.mem_cons.mp he with rfl | hmem
      · exact absurd ha hne
      · simpa [deleteFromColl, ha] using hmem
    · rcases List.mem_cons.mp he with rfl | hmem
      · simp [deleteFromColl, ha]
      · simp [deleteFromColl, ha, ih hmem]

theorem find_one_deleteFromColl_self (c : Coll) (idv : Value)
    (hnd : (c.map Prod.fst).Nodup) :
    find_one (deleteFromColl c idv).2 idv = none := by
  induction c with
  | nil => rfl
  | cons e rest ih =>
    rw [List.map_cons, List.nodup_cons] at hnd
    by_cases he : e.1 = idv
    · have : idv ∉ rest.map Prod.fst := he ▸ hnd.1
      simp [deleteFromColl, he, find_one_eq_none_of_not_mem rest idv this]
    · simp [deleteFromColl, he, find_one, ih hnd.2]

theorem insert_one_ok (s : DBState) (coll : String) (data : Doc)
    (idv : Value) (s' : DBState)
    (h : insert_one s coll data = .ok (idv, s')) :
    getColl s' coll = getColl s coll ++ [(idv, dropField "_id" data)] ∧
    (∀ c, c ≠ coll → getColl s' c = getColl s c) := by
  cases hg : getField "_id" data with
  | some v =>
    rw [insert_one] at h
    simp only [hg] at h
    split at h
    · cases h
    · rw [Except.ok.injEq, Prod.mk.injEq] at h
      obtain ⟨rfl, rfl⟩ := h
      exact ⟨getColl_setColl_self _ _ _, fun c hc => getColl_setColl_ne _ _ _ _ hc⟩
  | none =>
    rw [insert_one] at h
    simp only [hg] at h
    split at h
    · cases h
    · rw [Except.ok.injEq, Prod.mk.injEq] at h
      obtain ⟨rfl, rfl⟩ := h
      refine ⟨?_, fun c hc => ?_⟩
      · rw [getColl_setColl_self]
        rfl
      · rw [getColl_setColl_ne _ _ _ _ hc]
        rfl

theorem convert_to_oid_eq (v : Value) : DB.convert_to_oid v = db.convert_to_oid v := by
  cases v <;> rfl

theorem db.update_go_found (s : DBState) (c : String) (data : Doc)
    (idv : Value) (oid : OId)
    (h : (find_one (getColl s c) (Value.vOid oid)).isSome) :
    db.update_go s c data idv oid =
      (setColl s c (replaceInColl (getColl s c) (Value.vOid oid) data).2,
       .ok ⟨200, .idOf idv⟩) := by
  simp [db.update_go, replaceInColl_matched, h]

theorem db.update_go_notfound (s : DBState) (c : String) (data : Doc)
    (idv : Value) (oid : OId)
    (h : find_one (getColl s c) (Value.vOid oid) = none) :
    db.update_go s c data idv oid =
      (setColl s c (getColl s c), .ok ⟨404, .notFound idv c⟩) := by
  simp [db.update_go, replaceInColl_matched, replaceInColl_not_found _ _ _ h, h]

theorem DB.update_go_found_new (s : DBState) (c : String) (data : Doc)
    (idv : Value) (oid : OId)
    (h : (find_one (getColl s c) (Value.vOid oid)).isSome) :
    DB.update_go s c data idv oid =
      (setColl s c (replaceInColl (getColl s c) (Value.vOid oid) data).2,
       .ok ⟨200, .okUpdated idv⟩) := by
  simp [DB.update_go, replaceInColl_matched, h]

theorem DB.update_go_notfound_new (s : DBState) (c : String) (data : Doc)
    (idv : Value) (oid : OId)
    (h : find_one (getColl s c) (Value.vOid oid) = none) :
    DB.update_go s c data idv oid =
      (setColl s c (getColl s c), .ok ⟨404, .errNotFound idv⟩) := by
  simp [DB.update_go, replaceInColl_matched, replaceInColl_not_found _ _ _ h, h]

theorem db.update_go_resp (s : DBState) (c : String) (data : Doc)
    (idv : Value) (oid : OId) :
    (db.update_go s c data idv oid).2 = .ok ⟨200, .idOf idv⟩ ∨
    (db.update_go s c data idv oid).2 = .ok ⟨404, .notFound idv c⟩ := by
  cases hf : find_one (getColl s c) (Value.vOid oid) with
  | some d =>
    left
    rw [db.update_go_found s c data idv oid (by simp [hf])]
  | none =>
    right
    rw [db.update_go_notfound s c data idv oid hf]

theorem DB.update_go_resp_new (s : DBState) (c : String) (data : Doc)
    (idv : Value) (oid : OId) :
    (DB.update_go s c data idv oid).2 = .ok ⟨200, .okUpdated idv⟩ ∨
    (DB.update_go s c data idv oid).2 = .ok ⟨404, .errNotFound idv⟩ := by
  cases hf : find_one (getColl s c) (Value.vOid oid) with
  | some d =>
    left
    rw [DB.update_go_found_new s c data idv oid (by simp [hf])]
  | none =>
    right
    rw [DB.update_go_notfound_new s c data idv oid hf]

theorem db.update_document_resp (s : DBState) (c : String) (data : Doc) :
    (∃ v, (db.update_document s c data).2 = .ok ⟨422, .couldNotConvert v⟩) ∨
    (∃ v, (db.update_document s c data).2 = .ok ⟨200, .idOf v⟩) ∨
    (∃ v, (db.update_document s c data).2 = .ok ⟨404, .notFound v c⟩) := by
  cases hg : getField "_id" data with
  | none =>
    simp only [db.update_document, hg]
    rcases db.update_go_resp ⟨s.colls, s.nextId + 1⟩ c (dropField "_id" data)
        (Value.vOid (genOId s.nextId)) (genOId s.nextId) with h | h
    · exact Or.inr (Or.inl ⟨_, h⟩)
    · exact Or.inr (Or.inr ⟨_, h⟩)
  | some idv =>
    cases hc : db.convert_to_oid idv with
    | none =>
      simp only [db.update_document, hg, hc]
      exact Or.inl ⟨idv, rfl⟩
    | some oid =>
      simp only [db.update_document, hg, hc]
      rcases db.update_go_resp s c (dropField "_id" data) idv oid with h | h
      · exact Or.inr (Or.inl ⟨_, h⟩)
      · exact Or.inr (Or.inr ⟨_, h⟩)

theorem DB.update_document_resp_new (s : DBState) (c : String) (data : Doc) :
    (∃ v, (DB.update_document s c data).2 = .ok ⟨422, .errConvert v⟩) ∨
    (∃ v, (DB.update_document s c data).2 = .ok ⟨200, .okUpdated v⟩) ∨
    (∃ v, (DB.update_document s c data).2 = .ok ⟨404, .errNotFound v⟩) := by
  cases hg : getField "_id" data with
  | none =>
    simp only [DB.update_document, hg]
    rcases DB.update_go_resp_new ⟨s.colls, s.nextId + 1⟩ c (dropField "_id" data)
        (Value.vOid (genOId s.nextId)) (genOId s.nextId) with h | h
    · exact Or.inr (Or.inl ⟨_, h⟩)
    · exact Or.inr (Or.inr ⟨_, h⟩)
  | some idv =>
    cases hc : DB.convert_to_oid idv with
    | none =>
      simp only [DB.update_document, hg, hc]
      exact Or.inl ⟨idv, rfl⟩
    | some oid =>
      simp only [DB.update_document, hg, hc]
      rcases DB.update_go_resp_new s c (dropField "_id" data) idv oid with h | h
      · exact Or.inr (Or.inl ⟨_, h⟩)
      · exact Or.inr (Or.inr ⟨_, h⟩)

/-! ### Claims -/

/-- C5: document ids round-trip through their string representation — for
every ObjectId, converting its string form back through `convert_to_oid`
(old revision) or `DB.__convert_to_oid` (new revision) yields the same id,
so an id returned in a response addresses the same document when used in an
item URL. -/
theorem claim_C5_id_roundtrip (o : OId) :
    db.convert_to_oid (Value.vStr (oidToStr o)) = some o ∧
    DB.convert_to_oid (Value.vStr (oidToStr o)) = some o := by
  constructor
  · rw [db.convert_to_oid, parseOId_oidToStr]
  · rw [DB.convert_to_oid, parseOId_oidToStr]

/-- C4: query-by-page is offset pagination with fixed page size 10 — for
every collection and page number `p ≥ 0` (a `Nat` here), `query_collection`
of both revisions returns status 200 with the documents obtained by
skipping the first `p * ITEMS_PER_PAGE` stored documents and taking at most
`ITEMS_PER_PAGE` of them, so consecutive pages cover the collection in
order without overlap (joining pages `0..n-1` yields exactly the first
`10 * n` documents). -/
theorem claim_C4_pagination (s : DBState) (c : String) (p : Nat) :
    db.ITEMS_PER_PAGE = 10 ∧ DB.ITEMS_PER_PAGE = 10 ∧
    (db.query_collection s c p).status = 200 ∧
    (DB.query_collection s c p []).status = 200 ∧
    db.resultDocs (db.query_collection s c p) =
      (((getColl s c).drop (p * 10)).take 10).map (fun e => renderDoc e.1 e.2) ∧
    DB.resultDocs (DB.query_collection s c p []) =
      db.resultDocs (db.query_collection s c p) ∧
    (db.resultDocs (db.query_collection s c p)).length ≤ 10 ∧
    ∀ n : Nat,
      (List.range n).flatMap (fun q => db.resultDocs (db.query_collection s c q)) =
        ((getColl s c).take (10 * n)).map (fun e => renderDoc e.1 e.2) := by
  have hpage : ∀ q : Nat, db.resultDocs (db.query_collection s c q) =
      (((getColl s c).drop (q * 10)).take 10).map (fun e => renderDoc e.1 e.2) := by
    intro q
    simp [db.query_collection, db.resultDocs, db.ITEMS_PER_PAGE]
  refine ⟨rfl, rfl, rfl, rfl, hpage p, ?_, ?_, ?_⟩
  · rw [hpage p]
    simp [DB.query_collection, DB.resultDocs, DB.ITEMS_PER_PAGE, matchesFilter]
  · rw [hpage p]
    simp [List.length_take]
  · intro n
    induction n with
    | zero => simp
    | succ n ih =>
      rw [List.range_succ, List.flatMap_append, ih, List.flatMap_cons,
        List.flatMap_nil, List.append_nil, hpage n]
      rw [← List.map_append]
      congr 1
      have h1 : 10 * (n + 1) = 10 * n + 10 := by ring
      rw [h1, List.take_add, Nat.mul_comm n 10]

/-- C9: the outcome of an update is determined solely by `matched_count` —
in both revisions `__update_document`/`update_document` never reaches the
final `modified_count == 0` branch (and never falls through all branches),
and when the replace matches a document it reports status 200 even if the
replacement left the stored fields unchanged. -/
theorem claim_C9_update_outcome_by_matched_count (s : DBState) (c : String) (data : Doc) :
    ((db.update_document s c data).2 ≠ Except.error DBErr.nameError ∧
     (∀ v, (db.update_document s c data).2 ≠ Except.ok ⟨400, db.Body.notUpdated v⟩) ∧
     (DB.update_document s c data).2 ≠ Except.error DBErr.nameError ∧
     (∀ v, (DB.update_document s c data).2 ≠ Except.ok ⟨400, DB.Body.errNotUpdated v⟩)) ∧
    (∀ idv oid d, getField "_id" data = some idv →
      db.convert_to_oid idv = some oid →
      find_one (getColl s c) (Value.vOid oid) = some d →
      (db.update_document s c data).2 = Except.ok ⟨200, db.Body.idOf idv⟩ ∧
      (DB.update_document s c data).2 = Except.ok ⟨200, DB.Body.okUpdated idv⟩) := by
  constructor
  · refine ⟨?_, ?_, ?_, ?_⟩
    · rcases db.update_document_resp s c data with ⟨v, h⟩ | ⟨v, h⟩ | ⟨v, h⟩ <;>
        rw [h] <;> simp
    · intro w
      rcases db.update_document_resp s c data with ⟨v, h⟩ | ⟨v, h⟩ | ⟨v, h⟩ <;>
        rw [h] <;> simp
    · rcases DB.update_document_resp_new s c data with ⟨v, h⟩ | ⟨v, h⟩ | ⟨v, h⟩ <;>
        rw [h] <;> simp
    · intro w
      rcases DB.update_document_resp_new s c data with ⟨v, h⟩ | ⟨v, h⟩ | ⟨v, h⟩ <;>
        rw [h] <;> simp
  · intro idv oid d hg hc hf
    have hc2 : DB.convert_to_oid idv = some oid := by
      rw [convert_to_oid_eq]; exact hc
    constructor
    · simp only [db.update_document, hg, hc]
      rw [db.update_go_found s c (dropField "_id" data) idv oid (by simp [hf])]
    · simp only [DB.update_document, hg, hc2]
      rw [DB.update_go_found_new s c (dropField "_id" data) idv oid (by simp [hf])]

/-- C9 witness: on a one-document store, updating that document through
both revisions reports status 200 with the success body. -/
theorem claim_C9_witness :
    (db.update_document
        ⟨[("items", [(Value.vOid (genOId 0), [("name", Value.vStr "x")])])], 1⟩
        "items" [("_id", Value.vOid (genOId 0)), ("name", Value.vStr "y")]).2 =
      Except.ok ⟨200, db.Body.idOf (Value.vOid (genOId 0))⟩ ∧
    (DB.update_document
        ⟨[("items", [(Value.vOid (genOId 0), [("name", Value.vStr "x")])])], 1⟩
        "items" [("_id", Value.vOid (genOId 0)), ("name", Value.vStr "y")]).2 =
      Except.ok ⟨200, DB.Body.okUpdated (Value.vOid (genOId 0))⟩ :=
  (claim_C9_update_outcome_by_matched_count
      ⟨[("items", [(Value.vOid (genOId 0), [("name", Value.vStr "x")])])], 1⟩
      "items" [("_id", Value.vOid (genOId 0)), ("name", Value.vStr "y")]).2
    (Value.vOid (genOId 0)) (genOId 0) [("name", Value.vStr "x")]
    rfl rfl rfl

/-- C8: upsert failure is atomic — when the data's `_id` does not name any
stored document (because it cannot be converted, or no document has that
id), both revisions of `upsert_document` return status 400 with the
"data had _id but wasn't found in database" body and leave the whole store
completely unchanged. -/
theorem claim_C8_upsert_absent_atomic (s : DBState) (c : String) (data : Doc)
    (idv : Value) (hg : getField "_id" data = some idv)
    (habs : ∀ oid, db.convert_to_oid idv = some oid →
      find_one (getColl s c) (Value.vOid oid) = none) :
    db.upsert_document s c data = (s, .ok ⟨400, db.Body.hadIdNotFound⟩) ∧
    DB.upsert_document s c data = (s, .ok ⟨400, DB.Body.hadIdNotFound⟩) := by
  have hq : ¬(db.query_document_by_id s c idv).status = 200 := by
    cases hc : db.convert_to_oid idv with
    | none => simp [db.query_document_by_id, hc]
    | some oid => simp [db.query_document_by_id, hc, habs oid hc]
  have hq2 : ¬(DB.query_document_by_id s c idv).status = 200 := by
    cases hc : DB.convert_to_oid idv with
    | none => simp [DB.query_document_by_id, hc]
    | some oid =>
      rw [convert_to_oid_eq] at hc
      simp [DB.query_document_by_id, convert_to_oid_eq, hc, habs oid hc]
  constructor
  · simp only [db.upsert_document, hg, if_neg hq]
  · simp only [DB.upsert_document, hg, if_neg hq2]

/-- C8 witness: with an `_id` naming a missing document, upsert on both
revisions returns 400 and returns the store as it was. -/
theorem claim_C8_witness :
    db.upsert_document ⟨[], 5⟩ "items" [("_id", Value.vOid (genOId 0))] =
      (⟨[], 5⟩, .ok ⟨400, db.Body.hadIdNotFound⟩) ∧
    DB.upsert_document ⟨[], 5⟩ "items" [("_id", Value.vOid (genOId 0))] =
      (⟨[], 5⟩, .ok ⟨400, DB.Body.hadIdNotFound⟩) :=
  claim_C8_upsert_absent_atomic ⟨[], 5⟩ "items" [("_id", Value.vOid (genOId 0))]
    (Value.vOid (genOId 0)) rfl (fun _ _ => rfl)

/-- C1: a document's id is immutable under a successful update — when
`upsert_document` takes the update path (the supplied `_id` converts and
names a stored document), in both revisions the `_id` key is removed from
the supplied data before the replace, the replacement is stored under that
same id, the collection's id sequence is unchanged, and every other
collection is untouched. -/
theorem claim_C1_update_preserves_id (s : DBState) (c : String) (data : Doc)
    (idv : Value) (oid : OId)
    (hg : getField "_id" data = some idv)
    (hc : db.convert_to_oid idv = some oid)
    (hf : (find_one (getColl s c) (Value.vOid oid)).isSome) :
    ((getColl (db.upsert_document s c data).1 c).map Prod.fst =
        (getColl s c).map Prod.fst ∧
      (∀ c', c' ≠ c → getColl (db.upsert_document s c data).1 c' = getColl s c') ∧
      find_one (getColl (db.upsert_document s c data).1 c) (Value.vOid oid) =
        some (dropField "_id" data)) ∧
    ((getColl (DB.upsert_document s c data).1 c).map Prod.fst =
        (getColl s c).map Prod.fst ∧
      (∀ c', c' ≠ c → getColl (DB.upsert_document s c data).1 c' = getColl s c') ∧
      find_one (getColl (DB.upsert_document s c data).1 c) (Value.vOid oid) =
        some (dropField "_id" data)) := by
  obtain ⟨d, hd⟩ := Option.isSome_iff_exists.mp hf
  have hq : (db.query_document_by_id s c idv).status = 200 := by
    simp [db.query_document_by_id, hc, hd]
  have hc2 : DB.convert_to_oid idv = some oid := by
    rw [convert_to_oid_eq]; exact hc
  have hq2 : (DB.query_document_by_id s c idv).status = 200 := by
    simp [DB.query_document_by_id, hc2, hd]
  have hst : (db.upsert_document s c data).1 =
      setColl s c (replaceInColl (getColl s c) (Value.vOid oid) (dropField "_id" data)).2 := by
    simp only [db.upsert_document, hg, if_pos hq, db.update_document, hc]
    rw [db.update_go_found s c (dropField "_id" data) idv oid hf]
  have hst2 : (DB.upsert_document s c data).1 =
      setColl s c (replaceInColl (getColl s c) (Value.vOid oid) (dropField "_id" data)).2 := by
    simp only [DB.upsert_document, hg, if_pos hq2, DB.update_document, hc2]
    rw [DB.update_go_found_new s c (dropField "_id" data) idv oid hf]
  rw [hst, hst2]
  have hkeys := replaceInColl_keys (getColl s c) (Value.vOid oid) (dropField "_id" data)
  have hself := find_one_replaceInColl_self (getColl s c) (Value.vOid oid)
    (dropField "_id" data) hf
  refine ⟨⟨?_, ?_, ?_⟩, ?_, ?_, ?_⟩ <;>
    first
    | rw [getColl_setColl_self]; assumption
    | intro c' hc'
      rw [getColl_setColl_ne _ _ _ _ hc']

/-- C1 witness: updating the single stored document keeps its id, leaves
other collections alone, and stores the data without its `_id` key. -/
theorem claim_C1_witness :
    (getColl (db.upsert_document
        ⟨[("items", [(Value.vOid (genOId 0), [("a", Value.vInt 1)])])], 1⟩
        "items" [("_id", Value.vOid (genOId 0)), ("a", Value.vInt 2)]).1
      "items").map Prod.fst = [Value.vOid (genOId 0)] ∧
    find_one (getColl (DB.upsert_document
        ⟨[("items", [(Value.vOid (genOId 0), [("a", Value.vInt 1)])])], 1⟩
        "items" [("_id", Value.vOid (genOId 0)), ("a", Value.vInt 2)]).1
      "items") (Value.vOid (genOId 0)) = some [("a", Value.vInt 2)] := by
  have h := claim_C1_update_preserves_id
    ⟨[("items", [(Value.vOid (genOId 0), [("a", Value.vInt 1)])])], 1⟩
    "items" [("_id", Value.vOid (genOId 0)), ("a", Value.vInt 2)]
    (Value.vOid (genOId 0)) (genOId 0) rfl rfl rfl
  exact ⟨h.1.1.trans rfl, h.2.2.2.trans rfl⟩

/-- C2 counterexample: with a collection that does not contain the supplied
`_id`, both revisions of `upsert_document` return status 400 and leave the
store unchanged — the document is **not** inserted, contradicting the
claimed insert-if-absent behaviour of upsert for data carrying an `_id`. -/
theorem claim_C2_counterexample :
    db.upsert_document ⟨[("items", [])], 7⟩ "items"
        [("_id", Value.vOid (genOId 3)), ("name", Value.vStr "x")] =
      (⟨[("items", [])], 7⟩, .ok ⟨400, db.Body.hadIdNotFound⟩) ∧
    DB.upsert_document ⟨[("items", [])], 7⟩ "items"
        [("_id", Value.vOid (genOId 3)), ("name", Value.vStr "x")] =
      (⟨[("items", [])], 7⟩, .ok ⟨400, DB.Body.hadIdNotFound⟩) := by
  constructor <;> rfl

/-- C2 (amended): `upsert_document` is insert-or-replace keyed by id except
that a supplied `_id` not naming a stored document is rejected: if the data
carries an `_id` naming a stored document, that document is replaced (both
revisions); if it carries an `_id` naming no stored document, status 400 is
returned and nothing is inserted; if `_id` is absent, a fresh document is
appended under the store-assigned id `genOId s.nextId`. -/
theorem claim_C2_amended_upsert (s : DBState) (c : String) (data : Doc) :
    (∀ idv oid, getField "_id" data = some idv →
      db.convert_to_oid idv = some oid →
      (find_one (getColl s c) (Value.vOid oid)).isSome →
      (db.upsert_document s c data).2 = .ok ⟨200, db.Body.idOf idv⟩ ∧
      (DB.upsert_document s c data).2 = .ok ⟨200, DB.Body.okUpdated idv⟩ ∧
      find_one (getColl (db.upsert_document s c data).1 c) (Value.vOid oid) =
        some (dropField "_id" data) ∧
      (DB.upsert_document s c data).1 = (db.upsert_document s c data).1) ∧
    (∀ idv, getField "_id" data = some idv →
      (∀ oid, db.convert_to_oid idv = some oid →
        find_one (getColl s c) (Value.vOid oid) = none) →
      db.upsert_document s c data = (s, .ok ⟨400, db.Body.hadIdNotFound⟩) ∧
      DB.upsert_document s c data = (s, .ok ⟨400, DB.Body.hadIdNotFound⟩)) ∧
    (getField "_id" data = none →
      find_one (getColl s c) (Value.vOid (genOId s.nextId)) = none →
      db.upsert_document s c data =
        (setColl ⟨s.colls, s.nextId + 1⟩ c
          (getColl s c ++ [(Value.vOid (genOId s.nextId), dropField "_id" data)]),
         .ok ⟨200, db.Body.idOf (Value.vOid (genOId s.nextId))⟩) ∧
      DB.upsert_document s c data =
        (setColl ⟨s.colls, s.nextId + 1⟩ c
          (getColl s c ++ [(Value.vOid (genOId s.nextId), dropField "_id" data)]),
         .ok ⟨200, DB.Body.okInserted (Value.vOid (genOId s.nextId))⟩)) := by
  refine ⟨?_, ?_, ?_⟩
  · intro idv oid hg hc hf
    obtain ⟨d, hd⟩ := Option.isSome_iff_exists.mp hf
    have hc2 : DB.convert_to_oid idv = some oid := by
      rw [convert_to_oid_eq]; exact hc
    have hq : (db.query_document_by_id s c idv).status = 200 := by
      simp [db.query_document_by_id, hc, hd]
    have hq2 : (DB.query_document_by_id s c idv).status = 200 := by
      simp [DB.query_document_by_id, hc2, hd]
    have h1 : db.upsert_document s c data =
        (setColl s c (replaceInColl (getColl s c) (Value.vOid oid)
          (dropField "_id" data)).2, .ok ⟨200, db.Body.idOf idv⟩) := by
      simp only [db.upsert_document, hg, if_pos hq, db.update_document, hc]
      rw [db.update_go_found s c (dropField "_id" data) idv oid hf]
    have h2 : DB.upsert_document s c data =
        (setColl s c (replaceInColl (getColl s c) (Value.vOid oid)
          (dropField "_id" data)).2, .ok ⟨200, DB.Body.okUpdated idv⟩) := by
      simp only [DB.upsert_document, hg, if_pos hq2, DB.update_document, hc2]
      rw [DB.update_go_found_new s c (dropField "_id" data) idv oid hf]
    rw [h1, h2]
    refine ⟨rfl, rfl, ?_, rfl⟩
    rw [getColl_setColl_self]
    exact find_one_replaceInColl_self _ _ _ hf
  · intro idv hg habs
    have hq : ¬(db.query_document_by_id s c idv).status = 200 := by
      cases hc : db.convert_to_oid idv with
      | none => simp [db.query_document_by_id, hc]
      | some oid => simp [db.query_document_by_id, hc, habs oid hc]
    have hq2 : ¬(DB.query_document_by_id s c idv).status = 200 := by
      cases hc : DB.convert_to_oid idv with
      | none => simp [DB.query_document_by_id, hc]
      | some oid =>
        rw [convert_to_oid_eq] at hc
        simp [DB.query_document_by_id, convert_to_oid_eq, hc, habs oid hc]
    exact ⟨by simp only [db.upsert_document, hg, if_neg hq],
           by simp only [DB.upsert_document, hg, if_neg hq2]⟩
  · intro hg hfresh
    have hnone : (find_one (getColl (⟨s.colls, s.nextId + 1⟩ : DBState) c)
        (Value.vOid (genOId s.nextId))).isSome = false := by
      show (find_one (getColl s c) (Value.vOid (genOId s.nextId))).isSome = false
      rw [hfresh]
      rfl
    constructor
    · simp only [db.upsert_document, hg, db.insert_document, insert_one, hnone,
        Bool.false_eq_true, if_false]
      rfl
    · simp only [DB.upsert_document, hg, DB.insert_document, insert_one, hnone,
        Bool.false_eq_true, if_false]
      rfl

/-- C2 witness: the three amended branches at concrete inputs — replace of
the stored document, 400 on an absent id, and fresh insert without `_id`. -/
theorem claim_C2_amended_witness :
    (db.upsert_document ⟨[("items", [(Value.vOid (genOId 0), [])])], 1⟩ "items"
        [("_id", Value.vOid (genOId 0)), ("b", Value.vInt 4)]).2 =
      .ok ⟨200, db.Body.idOf (Value.vOid (genOId 0))⟩ ∧
    db.upsert_document ⟨[], 2⟩ "items" [("_id", Value.vOid (genOId 9))] =
      (⟨[], 2⟩, .ok ⟨400, db.Body.hadIdNotFound⟩) ∧
    DB.upsert_document ⟨[], 0⟩ "items" [("k", Value.vStr "v")] =
      (setColl ⟨[], 1⟩ "items" [(Value.vOid (genOId 0), [("k", Value.vStr "v")])],
       .ok ⟨200, DB.Body.okInserted (Value.vOid (genOId 0))⟩) := by
  refine ⟨?_, ?_, ?_⟩
  · exact ((claim_C2_amended_upsert
      ⟨[("items", [(Value.vOid (genOId 0), [])])], 1⟩ "items"
      [("_id", Value.vOid (genOId 0)), ("b", Value.vInt 4)]).1
      (Value.vOid (genOId 0)) (genOId 0) rfl rfl rfl).1
  · exact ((claim_C2_amended_upsert ⟨[], 2⟩ "items"
      [("_id", Value.vOid (genOId 9))]).2.1
      (Value.vOid (genOId 9)) rfl (fun _ _ => rfl)).1
  · exact (((claim_C2_amended_upsert ⟨[], 0⟩ "items"
      [("k", Value.vStr "v")]).2.2 rfl rfl).2).trans rfl

/-- C3: find-one-by-id and delete-by-id map failures to status codes — an
unconvertible id string gives 422 with the store untouched, a well-formed
id matching nothing gives 404, and a matching id gives 200: the query
returns the document and the delete removes it (both revisions). -/
theorem claim_C3_status_mapping (s : DBState) (c : String) (idstr : String) :
    (parseOId idstr = none →
      db.query_document_by_id s c (Value.vStr idstr) =
        ⟨422, db.Body.couldNotConvert (Value.vStr idstr)⟩ ∧
      DB.query_document_by_id s c (Value.vStr idstr) =
        ⟨422, DB.Body.errConvert (Value.vStr idstr)⟩ ∧
      db.delete_document_by_id s c (Value.vStr idstr) =
        (⟨422, db.Body.couldNotConvert (Value.vStr idstr)⟩, s) ∧
      DB.delete_document_by_id s c (Value.vStr idstr) =
        (⟨422, DB.Body.errConvert (Value.vStr idstr)⟩, s)) ∧
    (∀ oid, parseOId idstr = some oid →
      find_one (getColl s c) (Value.vOid oid) = none →
      (db.query_document_by_id s c (Value.vStr idstr)).status = 404 ∧
      (DB.query_document_by_id s c (Value.vStr idstr)).status = 404 ∧
      (db.delete_document_by_id s c (Value.vStr idstr)).1.status = 404 ∧
      (DB.delete_document_by_id s c (Value.vStr idstr)).1.status = 404) ∧
    (∀ oid d, parseOId idstr = some oid →
      find_one (getColl s c) (Value.vOid oid) = some d →
      db.query_document_by_id s c (Value.vStr idstr) =
        ⟨200, db.Body.doc (renderDoc (Value.vOid oid) d)⟩ ∧
      DB.query_document_by_id s c (Value.vStr idstr) =
        ⟨200, DB.Body.doc (renderDoc (Value.vOid oid) d)⟩ ∧
      (db.delete_document_by_id s c (Value.vStr idstr)).1.status = 200 ∧
      (DB.delete_document_by_id s c (Value.vStr idstr)).1.status = 200 ∧
      (getColl (db.delete_document_by_id s c (Value.vStr idstr)).2 c).length + 1 =
        (getColl s c).length ∧
      (∀ e ∈ getColl s c, e.1 ≠ Value.vOid oid →
        e ∈ getColl (db.delete_document_by_id s c (Value.vStr idstr)).2 c) ∧
      (((getColl s c).map Prod.fst).Nodup →
        find_one (getColl (db.delete_document_by_id s c (Value.vStr idstr)).2 c)
          (Value.vOid oid) = none) ∧
      (DB.delete_document_by_id s c (Value.vStr idstr)).2 =
        (db.delete_document_by_id s c (Value.vStr idstr)).2) := by
  refine ⟨?_, ?_, ?_⟩
  · intro hp
    refine ⟨?_, ?_, ?_, ?_⟩ <;>
      simp [db.query_document_by_id, DB.query_document_by_id,
        db.delete_document_by_id, DB.delete_document_by_id,
        db.convert_to_oid, DB.convert_to_oid, hp]
  · intro oid hp hf
    refine ⟨?_, ?_, ?_, ?_⟩ <;>
      simp [db.query_document_by_id, DB.query_document_by_id,
        db.delete_document_by_id, DB.delete_document_by_id,
        db.convert_to_oid, DB.convert_to_oid, hp, hf,
        deleteFromColl_not_found _ _ hf]
  · intro oid d hp hf
    have hs : (find_one (getColl s c) (Value.vOid oid)).isSome := by simp [hf]
    have hcnt : (deleteFromColl (getColl s c) (Value.vOid oid)).1 = 1 := by
      rw [deleteFromColl_count, if_pos hs]
    have hdel : db.delete_document_by_id s c (Value.vStr idstr) =
        (⟨200, db.Body.deleted (Value.vStr idstr)⟩,
         setColl s c (deleteFromColl (getColl s c) (Value.vOid oid)).2) := by
      simp [db.delete_document_by_id, db.convert_to_oid, hp, hcnt]
    have hdel2 : DB.delete_document_by_id s c (Value.vStr idstr) =
        (⟨200, DB.Body.okDeleted (Value.vStr idstr)⟩,
         setColl s c (deleteFromColl (getColl s c) (Value.vOid oid)).2) := by
      simp [DB.delete_document_by_id, DB.convert_to_oid, hp, hcnt]
    refine ⟨?_, ?_, ?_, ?_, ?_, ?_, ?_, ?_⟩
    · simp [db.query_document_by_id, db.convert_to_oid, hp, hf]
    · simp [DB.query_document_by_id, DB.convert_to_oid, hp, hf]
    · rw [hdel]
    · rw [hdel2]
    · rw [hdel]
      show (getColl (setColl s c _) c).length + 1 = _
      rw [getColl_setColl_self]
      exact deleteFromColl_length _ _ hs
    · intro e he hne
      rw [hdel]
      show e ∈ getColl (setColl s c _) c
      rw [getColl_setColl_self]
      exact deleteFromColl_mem _ _ e he hne
    · intro hnd
      rw [hdel]
      show find_one (getColl (setColl s c _) c) _ = none
      rw [getColl_setColl_self]
      exact find_one_deleteFromColl_self _ _ hnd
    · rw [hdel, hdel2]

/-- C3 witness: on a one-document store — a malformed id gives 422 and the
unchanged store, an unmatched well-formed id gives 404 on delete, and the
stored id gives 200 with the document on query. -/
theorem claim_C3_witness :
    db.delete_document_by_id
        ⟨[("items", [(Value.vOid (genOId 0), [("a", Value.vInt 1)])])], 1⟩
        "items" (Value.vStr "zz") =
      (⟨422, db.Body.couldNotConvert (Value.vStr "zz")⟩,
       ⟨[("items", [(Value.vOid (genOId 0), [("a", Value.vInt 1)])])], 1⟩) ∧
    (db.delete_document_by_id
        ⟨[("items", [(Value.vOid (genOId 0), [("a", Value.vInt 1)])])], 1⟩
        "items" (Value.vStr (oidToStr (genOId 5)))).1.status = 404 ∧
    DB.query_document_by_id
        ⟨[("items", [(Value.vOid (genOId 0), [("a", Value.vInt 1)])])], 1⟩
        "items" (Value.vStr (oidToStr (genOId 0))) =
      ⟨200, DB.Body.doc (renderDoc (Value.vOid (genOId 0)) [("a", Value.vInt 1)])⟩ := by
  refine ⟨?_, ?_, ?_⟩
  · exact ((claim_C3_status_mapping
      ⟨[("items", [(Value.vOid (genOId 0), [("a", Value.vInt 1)])])], 1⟩
      "items" "zz").1 (by decide)).2.2.1
  · exact ((claim_C3_status_mapping
      ⟨[("items", [(Value.vOid (genOId 0), [("a", Value.vInt 1)])])], 1⟩
      "items" (oidToStr (genOId 5))).2.1 (genOId 5)
      (parseOId_oidToStr (genOId 5)) (by decide)).2.2.1
  · exact ((claim_C3_status_mapping
      ⟨[("items", [(Value.vOid (genOId 0), [("a", Value.vInt 1)])])], 1⟩
      "items" (oidToStr (genOId 0))).2.2 (genOId 0) [("a", Value.vInt 1)]
      (parseOId_oidToStr (genOId 0)) (by decide)).2.1

theorem resetLoop_all_empty (cfg : List (String × List Doc)) :
    ∀ (s : DBState) (last : Option Value), (∀ rd ∈ cfg, rd.2 = ([] : List Doc)) →
    resetLoop s cfg last = (s, .ok last) := by
  induction cfg with
  | nil => intro s last _; rfl
  | cons rd rest ih =>
    intro s last hempty
    have hrd : rd.2 = ([] : List Doc) := hempty rd (List.mem_cons_self rd rest)
    rw [resetLoop, hrd]
    show (match (s, Except.ok last) with
      | (s', Except.ok last') => resetLoop s' rest last'
      | (s', Except.error e) => (s', Except.error e)) = (s, Except.ok last)
    exact ih s last (fun x hx => hempty x (List.mem_cons_of_mem rd hx))

/-- C10: reset requires at least one fixture document — when every resource
of the configuration has an empty fixture list, both revisions drop the
database and then fail with the unhandled `NameError` from the never-bound
`result` variable instead of returning the success response, leaving the
database empty. -/
theorem claim_C10_reset_needs_fixture (s : DBState)
    (cfg : List (String × List Doc))
    (hempty : ∀ rd ∈ cfg, rd.2 = ([] : List Doc)) :
    db.reset s cfg = (⟨[], s.nextId⟩, .error DBErr.nameError) ∧
    DB.reset s cfg = (⟨[], s.nextId⟩, .error DBErr.nameError) := by
  have h := resetLoop_all_empty cfg ⟨[], s.nextId⟩ none hempty
  constructor
  · rw [db.reset, h]
  · rw [DB.reset, h]

/-- C10 witness: resetting a non-empty store against a configuration whose
single resource has no fixture documents raises the `NameError` and leaves
the store empty. -/
theorem claim_C10_witness :
    db.reset ⟨[("old", [(Value.vInt 9, [("x", Value.vInt 0)])])], 3⟩
        [("items", [])] =
      (⟨[], 3⟩, .error DBErr.nameError) ∧
    DB.reset ⟨[("old", [(Value.vInt 9, [("x", Value.vInt 0)])])], 3⟩
        [("items", [])] =
      (⟨[], 3⟩, .error DBErr.nameError) :=
  claim_C10_reset_needs_fixture
    ⟨[("old", [(Value.vInt 9, [("x", Value.vInt 0)])])], 3⟩
    [("items", [])] (by decide)

theorem insertAll_ok (res : String) (docs : List Doc) :
    ∀ (s : DBState) (last : Option Value) (s' : DBState) (l' : Option Value),
    insertAll s res docs last = (s', .ok l') →
    ((getColl s' res).map Prod.snd =
      (getColl s res).map Prod.snd ++ docs.map (dropField "_id")) ∧
    ∀ c, c ≠ res → getColl s' c = getColl s c := by
  induction docs with
  | nil =>
    intro s last s' l' h
    rw [insertAll] at h
    have h1 : s = s' := congrArg Prod.fst h
    subst h1
    simp
  | cons d rest ih =>
    intro s last s' l' h
    rw [insertAll] at h
    cases hins : insert_one s res d with
    | error e =>
      rw [hins] at h
      exact absurd (congrArg Prod.snd h) (by simp)
    | ok p =>
      obtain ⟨idv, s1⟩ := p
      rw [hins] at h
      have hA := insert_one_ok s res d idv s1 hins
      have hB := ih s1 (some idv) s' l' h
      constructor
      · rw [hB.1, hA.1, List.map_append, List.map_cons, List.map_nil,
          List.append_assoc]
        rfl
      · intro c hc
        rw [hB.2 c hc, hA.2 c hc]

theorem resetLoop_untouched (cfg : List (String × List Doc)) :
    ∀ (s : DBState) (last : Option Value) (s' : DBState) (l' : Option Value),
    resetLoop s cfg last = (s', .ok l') →
    ∀ c, c ∉ cfg.map Prod.fst → getColl s' c = getColl s c := by
  induction cfg with
  | nil =>
    intro s last s' l' h c _
    rw [resetLoop] at h
    have h1 : s = s' := congrArg Prod.fst h
    subst h1
    rfl
  | cons rd rest ih =>
    intro s last s' l' h c hc
    rw [resetLoop] at h
    rw [List.map_cons, List.mem_cons, not_or] at hc
    cases hia : insertAll s rd.1 rd.2 last with
    | mk s1 r =>
      rw [hia] at h
      cases r with
      | error e => exact absurd (congrArg Prod.snd h) (by simp)
      | ok last1 =>
        rw [ih s1 last1 s' l' h c hc.2]
        exact (insertAll_ok rd.1 rd.2 s last s1 last1 hia).2 c hc.1

theorem resetLoop_content (cfg : List (String × List Doc)) :
    ∀ (s : DBState) (last : Option Value) (s' : DBState) (l' : Option Value),
    resetLoop s cfg last = (s', .ok l') → (cfg.map Prod.fst).Nodup →
    ∀ rd ∈ cfg, (getColl s' rd.1).map Prod.snd =
      (getColl s rd.1).map Prod.snd ++ rd.2.map (dropField "_id") := by
  induction cfg with
  | nil => intro s last s' l' _ _ rd hrd; cases hrd
  | cons rd0 rest ih =>
    intro s last s' l' h hnd rd hrd
    rw [resetLoop] at h
    rw [List.map_cons, List.nodup_cons] at hnd
    cases hia : insertAll s rd0.1 rd0.2 last with
    | mk s1 r =>
      rw [hia] at h
      cases r with
      | error e => exact absurd (congrArg Prod.snd h) (by simp)
      | ok last1 =>
        have hAok := insertAll_ok rd0.1 rd0.2 s last s1 last1 hia
        rcases List.mem_cons.mp hrd with rfl | hmem
        · rw [resetLoop_untouched rest s1 last1 s' l' h rd.1 hnd.1]
          exact hAok.1
        · have hne : rd.1 ≠ rd0.1 := by
            intro he
            exact hnd.1 (he ▸ List.mem_map_of_mem Prod.fst hmem)
          rw [ih s1 last1 s' l' h hnd.2 rd hmem, hAok.2 rd.1 hne]

/-- C6: reset rebuilds the store exactly from the fixtures — whenever
`reset` completes successfully on a configuration with distinct resource
names, every resource's collection holds exactly that resource's fixture
documents in order (contents stored without any `_id` key) and every
other collection, including everything previously stored, is empty; the
new revision's `DB.reset` produces the same store. -/
theorem claim_C6_reset_exact (s : DBState) (cfg : List (String × List Doc))
    (s' : DBState) (r : db.Resp)
    (hok : db.reset s cfg = (s', .ok r)) (hnd : (cfg.map Prod.fst).Nodup) :
    (∀ rd ∈ cfg, (getColl s' rd.1).map Prod.snd = rd.2.map (dropField "_id")) ∧
    (∀ c, c ∉ cfg.map Prod.fst → getColl s' c = []) ∧
    (DB.reset s cfg).1 = s' ∧ (∃ r2, (DB.reset s cfg).2 = .ok r2) := by
  rw [db.reset] at hok
  cases hrl : resetLoop ⟨[], s.nextId⟩ cfg none with
  | mk s1 r1 =>
    rw [hrl] at hok
    cases r1 with
    | error e => exact absurd (congrArg Prod.snd hok) (by simp)
    | ok lastv =>
      cases lastv with
      | none => exact absurd (congrArg Prod.snd hok) (by simp)
      | some idv =>
        have h1 : s1 = s' := congrArg Prod.fst hok
        subst h1
        refine ⟨?_, ?_, ?_, ?_⟩
        · intro rd hrd
          have := resetLoop_content cfg ⟨[], s.nextId⟩ none s1 (some idv)
            hrl hnd rd hrd
          have h2 : getColl ⟨[], s.nextId⟩ rd.1 = [] := rfl
          rwa [h2, List.map_nil, List.nil_append] at this
        · intro c hc
          have := resetLoop_untouched cfg ⟨[], s.nextId⟩ none s1 (some idv)
            hrl c hc
          have h2 : getColl ⟨[], s.nextId⟩ c = [] := rfl
          rwa [h2] at this
        · rw [DB.reset, hrl]
        · rw [DB.reset, hrl]
          exact ⟨_, rfl⟩

/-- C6 witness: resetting a non-empty store against a one-resource
configuration leaves exactly that resource's single fixture document and
empties the previously used collection. -/
theorem claim_C6_witness :
    (getColl (db.reset ⟨[("old", [(Value.vInt 9, [])])], 0⟩
        [("users", [[("n", Value.vInt 1)]])]).1 "users").map Prod.snd =
      [[("n", Value.vInt 1)]] ∧
    getColl (db.reset ⟨[("old", [(Value.vInt 9, [])])], 0⟩
        [("users", [[("n", Value.vInt 1)]])]).1 "old" = [] := by
  have h := claim_C6_reset_exact ⟨[("old", [(Value.vInt 9, [])])], 0⟩
    [("users", [[("n", Value.vInt 1)]])]
    (db.reset ⟨[("old", [(Value.vInt 9, [])])], 0⟩
      [("users", [[("n", Value.vInt 1)]])]).1
    ⟨200, db.Body.resetMsg (Value.vOid (genOId 0))⟩ rfl (by decide)
  exact ⟨(h.1 ("users", [[("n", Value.vInt 1)]]) (by decide)).trans (by decide),
         h.2.1 "old" (by decide)⟩

theorem update_go_equiv (s : DBState) (c : String) (data : Doc)
    (idv : Value) (oid : OId) :
    (db.update_go s c data idv oid).1 = (DB.update_go s c data idv oid).1 ∧
    db.respStatus (db.update_go s c data idv oid).2 =
      DB.respStatus (DB.update_go s c data idv oid).2 := by
  cases hf : find_one (getColl s c) (Value.vOid oid) with
  | some d =>
    rw [db.update_go_found s c data idv oid (by simp [hf]),
        DB.update_go_found_new s c data idv oid (by simp [hf])]
    exact ⟨rfl, rfl⟩
  | none =>
    rw [db.update_go_notfound s c data idv oid hf,
        DB.update_go_notfound_new s c data idv oid hf]
    exact ⟨rfl, rfl⟩

theorem update_document_equiv (s : DBState) (c : String) (data : Doc) :
    (db.update_document s c data).1 = (DB.update_document s c data).1 ∧
    db.respStatus (db.update_document s c data).2 =
      DB.respStatus (DB.update_document s c data).2 := by
  cases hg : getField "_id" data with
  | none =>
    simp only [db.update_document, DB.update_document, hg]
    exact update_go_equiv _ _ _ _ _
  | some idv =>
    cases hc : db.convert_to_oid idv with
    | none =>
      have hc2 : DB.convert_to_oid idv = none := by
        rw [convert_to_oid_eq]; exact hc
      simp only [db.update_document, DB.update_document, hg, hc, hc2]
      refine ⟨?_, ?_⟩ <;> first | rfl | trivial
    | some oid =>
      have hc2 : DB.convert_to_oid idv = some oid := by
        rw [convert_to_oid_eq]; exact hc
      simp only [db.update_document, DB.update_document, hg, hc, hc2]
      exact update_go_equiv _ _ _ _ _

theorem query_document_equiv (s : DBState) (c : String) (id : Value) :
    (db.query_document_by_id s c id).status =
      (DB.query_document_by_id s c id).status ∧
    ∀ d, (db.query_document_by_id s c id).body = db.Body.doc d ↔
      (DB.query_document_by_id s c id).body = DB.Body.doc d := by
  cases hc : db.convert_to_oid id with
  | none =>
    have hc2 : DB.convert_to_oid id = none := by
      rw [convert_to_oid_eq]; exact hc
    simp [db.query_document_by_id, DB.query_document_by_id, hc, hc2]
  | some oid =>
    have hc2 : DB.convert_to_oid id = some oid := by
      rw [convert_to_oid_eq]; exact hc
    cases hf : find_one (getColl s c) (Value.vOid oid) with
    | some d0 =>
      simp [db.query_document_by_id, DB.query_document_by_id, hc, hc2, hf]
    | none =>
      simp [db.query_document_by_id, DB.query_document_by_id, hc, hc2, hf]

theorem upsert_document_equiv (s : DBState) (c : String) (data : Doc) :
    (db.upsert_document s c data).1 = (DB.upsert_document s c data).1 ∧
    db.respStatus (db.upsert_document s c data).2 =
      DB.respStatus (DB.upsert_document s c data).2 := by
  cases hg : getField "_id" data with
  | none =>
    simp only [db.upsert_document, DB.upsert_document, hg, db.insert_document,
      DB.insert_document]
    cases hins : insert_one s c data with
    | error e => exact ⟨rfl, rfl⟩
    | ok p => exact ⟨rfl, rfl⟩
  | some idv =>
    have hq := (query_document_equiv s c idv).1
    by_cases hq200 : (db.query_document_by_id s c idv).status = 200
    · have hq200b : (DB.query_document_by_id s c idv).status = 200 := hq ▸ hq200
      simp only [db.upsert_document, DB.upsert_document, hg, if_pos hq200,
        if_pos hq200b]
      exact update_document_equiv _ _ _
    · have hq200b : ¬(DB.query_document_by_id s c idv).status = 200 := hq ▸ hq200
      simp only [db.upsert_document, DB.upsert_document, hg, if_neg hq200,
        if_neg hq200b]
      refine ⟨?_, ?_⟩ <;> first | rfl | trivial

theorem delete_document_equiv (s : DBState) (c : String) (id : Value) :
    (db.delete_document_by_id s c id).2 = (DB.delete_document_by_id s c id).2 ∧
    (db.delete_document_by_id s c id).1.status =
      (DB.delete_document_by_id s c id).1.status := by
  cases hc : db.convert_to_oid id with
  | none =>
    have hc2 : DB.convert_to_oid id = none := by
      rw [convert_to_oid_eq]; exact hc
    simp [db.delete_document_by_id, DB.delete_document_by_id, hc, hc2]
  | some oid =>
    have hc2 : DB.convert_to_oid id = some oid := by
      rw [convert_to_oid_eq]; exact hc
    by_cases hd : (deleteFromColl (getColl s c) (Value.vOid oid)).1 > 0 <;>
      simp [db.delete_document_by_id, DB.delete_document_by_id, hc, hc2, hd]

/-- C7: the two revisions of the data-access layer are behaviourally
equivalent — on every store, collection, page, id and data dict, the old
(`src/db.py`) and new (`src/server/db.py` class `DB`) versions of
query-by-page (the new one applied with the empty filter it defaults to),
query-by-id, upsert, update and delete-by-id make the same decision (same
status code or same propagated exception), effect the same store mutation,
and return the same documents, differing only in the shape of the response
bodies. -/
theorem claim_C7_revisions_equivalent (s : DBState) (c : String) (p : Nat)
    (id : Value) (data : Doc) :
    ((db.query_collection s c p).status = (DB.query_collection s c p []).status ∧
     db.resultDocs (db.query_collection s c p) =
       DB.resultDocs (DB.query_collection s c p [])) ∧
    ((db.query_document_by_id s c id).status =
       (DB.query_document_by_id s c id).status ∧
     ∀ d, (db.query_document_by_id s c id).body = db.Body.doc d ↔
       (DB.query_document_by_id s c id).body = DB.Body.doc d) ∧
    ((db.upsert_document s c data).1 = (DB.upsert_document s c data).1 ∧
     db.respStatus (db.upsert_document s c data).2 =
       DB.respStatus (DB.upsert_document s c data).2) ∧
    ((db.update_document s c data).1 = (DB.update_document s c data).1 ∧
     db.respStatus (db.update_document s c data).2 =
       DB.respStatus (DB.update_document s c data).2) ∧
    ((db.delete_document_by_id s c id).2 = (DB.delete_document_by_id s c id).2 ∧
     (db.delete_document_by_id s c id).1.status =
       (DB.delete_document_by_id s c id).1.status) := by
  refine ⟨⟨rfl, ?_⟩, query_document_equiv s c id, upsert_document_equiv s c data,
    update_document_equiv s c data, delete_document_equiv s c id⟩
  simp [db.query_collection, DB.query_collection, db.resultDocs, DB.resultDocs,
    db.ITEMS_PER_PAGE, DB.ITEMS_PER_PAGE, matchesFilter]
